import Mathlib

/-!
Verification of the learning_journal Flask application (src/journal.py).

The embedding models:
  * the Python exception values the program can raise or receive
    (`PyErr`), mirroring the exception classes that appear in the source
    (`ValueError`, `TypeError`, `KeyError`, `psycopg2.Error` subclasses,
    and werkzeug's `NotFound` used by `flask.abort(404)` — never raised
    by this program);
  * the `entries` table (`Store`) and the SQL statements
    `DB_ENTRY_INSERT`, `DB_ENTRIES_LIST`, `DB_SINGLE_ENTRY`,
    `DB_UPDATE_ENTRY` as functions on it;
  * a psycopg2 connection (`PgConn`) with a durable (committed) view and
    the current in-transaction view, plus failure-injection fields so
    that a `commit`/`rollback`/`close` call may itself raise, as the
    spec's failure-semantics sentences require;
  * the request teardown hook `teardown_request`, the store operations
    `write_entry`, `get_all_entries`, `get_entry`, `update_entry`, the
    login check `do_login`, and the POST handlers `add_entry` and
    `submit_edit`.

Abstractions: timestamps are naturals (`datetime.datetime.utcnow()`
becomes an explicit `now` argument taken at the moment of the call);
passlib's `pbkdf2_sha256` is an external library and is modelled as an
ideal collision-free salted KDF (the derived digest determines the
password exactly); the serial primary key is a `nextId` counter starting
at 1, as PostgreSQL's `serial` does.
-/

/-- Python exception values occurring in (or available to) journal.py.
`valueError` is raised by `write_entry`/`update_entry` on empty input
(the spec's InvalidInput) and by `do_login` on bad credentials (the
spec's AuthError); `operationalError`, `integrityError` and `dataError`
are the `psycopg2.Error` subclasses (the spec's StorageError);
`typeError` is what `dict(zip(keys, None))` raises; `keyError` is what
`request.form[missing]` raises; `notFound` is werkzeug's NotFound
(raised by `flask.abort(404)`), which this program never raises. -/
inductive PyErr where
  | valueError
  | typeError
  | keyError
  | notFound
  | operationalError
  | integrityError
  | dataError
  deriving DecidableEq, Repr

/-- `isinstance(e, psycopg2.Error)`: true exactly for the
database-layer exception classes. -/
def isinstance_psycopg2_Error : PyErr → Bool
  | PyErr.operationalError => true
  | PyErr.integrityError => true
  | PyErr.dataError => true
  | _ => false

/-- The guard `exception and isinstance(exception, psycopg2.Error)` in
`teardown_request`: `None` is falsy, any exception object is truthy. -/
def isDBError : Option PyErr → Bool
  | none => false
  | some e => isinstance_psycopg2_Error e

/-- One row of the `entries` table: columns `id serial PRIMARY KEY`,
`title`, `text`, `created TIMESTAMP` (timestamps modelled as `Nat`). -/
structure Row where
  id : Nat
  title : String
  text : String
  created : Nat
  deriving DecidableEq, Repr

/-- The `entries` table together with the state of its `serial`
sequence (PostgreSQL serials start at 1). -/
structure Store where
  rows : List Row
  nextId : Nat
  deriving DecidableEq, Repr

/-- A freshly initialised database (`init_db`): no rows, serial at 1. -/
def emptyStore : Store := { rows := [], nextId := 1 }

/-- `DB_ENTRY_INSERT`: `INSERT INTO entries (title, text, created)
VALUES (%s, %s, %s)` — the serial assigns the id. The `title` column is
`VARCHAR (127) NOT NULL` (`DB_SCHEMA`, journal.py line 68): a title
longer than 127 characters makes PostgreSQL raise "value too long for
type character varying(127)", a `psycopg2.DataError`, and the insert
persists nothing. `text` is unbounded `TEXT`. -/
def execInsert (st : Store) (title text : String) (created : Nat) :
    Except PyErr Store :=
  if title.length > 127 then Except.error PyErr.dataError
  else Except.ok
    { rows := st.rows ++ [{ id := st.nextId, title := title, text := text, created := created }],
      nextId := st.nextId + 1 }

/-- The comparison of `ORDER BY created DESC`: `a` may precede `b`
exactly when `b.created ≤ a.created`. -/
def createdDesc (a b : Row) : Prop := b.created ≤ a.created

instance : DecidableRel createdDesc := fun a b => Nat.decLe b.created a.created

instance : IsTotal Row createdDesc := ⟨fun a b => Nat.le_total b.created a.created⟩

instance : IsTrans Row createdDesc := ⟨fun _ _ _ h1 h2 => Nat.le_trans h2 h1⟩

/-- `DB_ENTRIES_LIST`: `SELECT id, title, text, created FROM entries
ORDER BY created DESC`. Modelled as sorting the rows by `created`
descending (the order among equal timestamps is unspecified in SQL; a
deterministic sort is one valid realisation). -/
def execEntriesList (st : Store) : List Row :=
  List.insertionSort createdDesc st.rows

/-- `DB_SINGLE_ENTRY` followed by `cur.fetchone()`:
`SELECT * FROM entries WHERE id = %s`, first matching row if any. -/
def execSingleEntry (st : Store) (eid : Nat) : Option Row :=
  (st.rows.filter (fun r => r.id == eid)).head?

/-- `DB_UPDATE_ENTRY`: `UPDATE entries SET title = %s, text = %s WHERE
id = %s` — rewrites `title` and `text` of every matching row, touching
nothing else. Writing a title longer than the column's `VARCHAR (127)`
bound into a matching row raises the same `psycopg2.DataError` as the
insert and changes nothing; with no matching row the statement updates
zero rows. -/
def execUpdate (st : Store) (title text : String) (eid : Nat) :
    Except PyErr Store :=
  if title.length > 127 ∧ st.rows.any (fun r => r.id == eid) = true then
    Except.error PyErr.dataError
  else Except.ok
    { st with
      rows := st.rows.map (fun r =>
        if r.id == eid then { r with title := title, text := text } else r) }

/-- A psycopg2 connection as seen by one request: `committed` is the
durable database state, `txn` the state visible inside the connection's
open transaction. The `…Fails` fields inject a database failure into
the corresponding method call (`none` = the call succeeds), and
`closed` records whether `close()` has completed. -/
structure PgConn where
  committed : Store
  txn : Store
  commitFails : Option PyErr := none
  rollbackFails : Option PyErr := none
  closeFails : Option PyErr := none
  closed : Bool := false
  deriving DecidableEq, Repr

/-- `db.commit()`: on success the transaction's writes become durable;
on an injected failure the exception is raised and nothing changes. -/
def commitOp (c : PgConn) : PgConn × Option PyErr :=
  match c.commitFails with
  | some e => (c, some e)
  | none => ({ c with committed := c.txn }, none)

/-- `db.rollback()`: on success the transaction's writes are discarded
and the visible state reverts to the durable state. -/
def rollbackOp (c : PgConn) : PgConn × Option PyErr :=
  match c.rollbackFails with
  | some e => (c, some e)
  | none => ({ c with txn := c.committed }, none)

/-- `db.close()`: marks the connection closed on success. -/
def closeOp (c : PgConn) : PgConn × Option PyErr :=
  match c.closeFails with
  | some e => (c, some e)
  | none => ({ c with closed := true }, none)

/-- The three connection methods `teardown_request` can call. The trace
records the calls that were actually made. -/
inductive DBAction where
  | rollback
  | commit
  | close
  deriving DecidableEq, Repr

/-- `teardown_request(exception)` (journal.py lines 222–253).
`db = getattr(g, 'db', None)`; if `db is not None`: roll back when
`exception and isinstance(exception, psycopg2.Error)`, else commit;
then `db.close()`. The Python body is straight-line code with no
`try`/`finally`, so an exception raised by `rollback()`/`commit()`
propagates immediately and the `close()` call is never reached.
Returns the final connection (if one existed), the trace of method
calls made, and the exception the teardown itself propagates. -/
def teardown_request (db : Option PgConn) (exception : Option PyErr) :
    Option PgConn × List DBAction × Option PyErr :=
  match db with
  | none => (none, [], none)
  | some c =>
    let act := if isDBError exception then DBAction.rollback else DBAction.commit
    let step := if isDBError exception then rollbackOp c else commitOp c
    match step.2 with
    | some e => (some step.1, [act], some e)
    | none =>
      let fin := closeOp step.1
      (some fin.1, [act, DBAction.close], fin.2)

/-- `write_entry(title, text)` (lines 256–275). In Python an empty
string is falsy, so `if not title or not text` raises `ValueError`
before any database work; otherwise the insert runs on the
request-scoped connection's open transaction with
`now = datetime.datetime.utcnow()` (the clock reading at call time,
passed here explicitly), and the function returns without committing. -/
def write_entry (title text : String) (now : Nat) (c : PgConn) :
    Except PyErr PgConn :=
  if title = "" ∨ text = "" then Except.error PyErr.valueError
  else
    match execInsert c.txn title text now with
    | Except.ok st => Except.ok { c with txn := st }
    | Except.error e => Except.error e

/-- `get_all_entries()` (lines 278–289): runs `DB_ENTRIES_LIST` on the
request connection and returns every result row (the dict per row has
exactly the columns of `Row`). Reads inside the open transaction see
that transaction's own uncommitted writes. -/
def get_all_entries (c : PgConn) : List Row :=
  execEntriesList c.txn

/-- `get_entry(entry_id)` (lines 334–345): runs `DB_SINGLE_ENTRY` and
builds `dict(zip(keys, cur.fetchone()))`. When no row matches,
`fetchone()` returns `None` and `zip(keys, None)` raises `TypeError`. -/
def get_entry (c : PgConn) (eid : Nat) : Except PyErr Row :=
  match execSingleEntry c.txn eid with
  | some r => Except.ok r
  | none => Except.error PyErr.typeError

/-- `update_entry(title, text, entry_id)` (lines 405–413):
`if not title or not text or not entry_id` raises `ValueError`
(for the numeric id, Python's falsy value is 0); otherwise
`DB_UPDATE_ENTRY` runs on the open transaction, without committing. -/
def update_entry (title text : String) (eid : Nat) (c : PgConn) :
    Except PyErr PgConn :=
  if title = "" ∨ text = "" ∨ eid = 0 then Except.error PyErr.valueError
  else
    match execUpdate c.txn title text eid with
    | Except.ok st => Except.ok { c with txn := st }
    | Except.error e => Except.error e

/-- Python exception semantics for a fallible store call: a raised
exception aborts the call, leaving the caller's connection exactly as
it was; a normal return yields the updated connection. -/
def connAfter (old : PgConn) : Except PyErr PgConn → PgConn
  | Except.ok c => c
  | Except.error _ => old

/-- Modelled from the spec and passlib's documented interface:
`pbkdf2_sha256` is an external library (not repository code). A hash
value carries its per-hash salt, iteration count and derived digest. -/
structure PBHash where
  salt : Nat
  rounds : Nat
  digest : String
  deriving DecidableEq, Repr

/-- `pbkdf2_sha256.encrypt(password)`: derives a digest from password
and salt. The KDF is modelled as an ideal collision-free function: the
digest is an injective image of the password (represented by the
password itself), which is exactly the no-collision idealisation. -/
def pbkdf2_encrypt (password : String) (salt rounds : Nat) : PBHash :=
  { salt := salt, rounds := rounds, digest := password }

/-- `pbkdf2_sha256.verify(password, hash)`: re-derives the digest with
the hash's own salt and rounds and compares. -/
def pbkdf2_verify (password : String) (h : PBHash) : Bool :=
  (pbkdf2_encrypt password h.salt h.rounds).digest == h.digest

/-- The app configuration entries the claims touch: `ADMIN_USERNAME`
and `ADMIN_PASSWORD` (stored as a pbkdf2 hash; the committed default is
`pbkdf2_sha256.encrypt('admin')`). -/
structure AppConfig where
  adminUsername : String
  adminPassword : PBHash
  deriving DecidableEq, Repr

/-- The default configuration baked into journal.py lines 133–143:
username `admin`, password hash `pbkdf2_sha256.encrypt('admin')`
(the salt and work factor are chosen by passlib; any values do). -/
def defaultConfig : AppConfig :=
  { adminUsername := "admin", adminPassword := pbkdf2_encrypt "admin" 7 29000 }

/-- The Flask session cookie as a partial map; only the keys journal.py
uses appear. A key that was never set is `none`. -/
structure Session where
  logged_in : Option Bool := none
  editing : Option Bool := none
  deriving DecidableEq, Repr

/-- A session before any login: no `logged_in` key. -/
def emptySession : Session := {}

/-- `do_login(username, passwd)` (lines 468–484): raises a bare
`ValueError` when the username differs from `ADMIN_USERNAME`; raises
the same bare `ValueError` when `pbkdf2_sha256.verify` rejects the
password; only when both checks pass does it set
`session['logged_in'] = True`. -/
def do_login (cfg : AppConfig) (username passwd : String) (s : Session) :
    Except PyErr Session :=
  if username ≠ cfg.adminUsername then Except.error PyErr.valueError
  else if ¬ pbkdf2_verify passwd cfg.adminPassword then Except.error PyErr.valueError
  else Except.ok { s with logged_in := some true }

/-- Python exception semantics for `do_login`: a raise leaves the
session cookie untouched. -/
def sessionAfter (old : Session) : Except PyErr Session → Session
  | Except.ok s => s
  | Except.error _ => old

/-- The POSTed form: `request.form['title']` / `request.form['text']`
raise `KeyError` when the field is absent. -/
structure Form where
  title : Option String := none
  text : Option String := none
  deriving DecidableEq, Repr

/-- What a handler invocation produces: a redirect to `/`, the
`abort(500)` server-error response, or an exception it did not catch
(which Flask turns into an error response and hands to teardown). -/
inductive HandlerResult where
  | redirectIndex
  | abort500
  | raised (e : PyErr)
  deriving DecidableEq, Repr

/-- `add_entry()` — `POST /add` (lines 439–465). The login check is
commented out in the source, so the session is never consulted. Reads
`request.form['title']` and `request.form['text']` (raising `KeyError`
if absent), calls `write_entry`, catches only `psycopg2.Error` into
`abort(500)`; any other exception (the `ValueError` of empty input)
propagates. On success, redirects to the `show_entries` view. -/
def add_entry (sess : Session) (form : Form) (now : Nat) (c : PgConn) :
    HandlerResult × PgConn :=
  match form.title, form.text with
  | some t, some x =>
    match write_entry t x now c with
    | Except.ok c1 => (HandlerResult.redirectIndex, c1)
    | Except.error e =>
      if isinstance_psycopg2_Error e then (HandlerResult.abort500, c)
      else (HandlerResult.raised e, c)
  | _, _ => (HandlerResult.raised PyErr.keyError, c)

/-- A connection holding one uncommitted insert, used as a concrete
request state. -/
def stdConn : PgConn :=
  { committed := emptyStore,
    txn := { rows := [{ id := 1, title := "T", text := "X", created := 5 }],
             nextId := 2 } }

/-- A connection whose `commit()` call raises a database error. -/
def commitFailConn : PgConn :=
  { committed := emptyStore,
    txn := { rows := [{ id := 1, title := "T", text := "X", created := 5 }],
             nextId := 2 },
    commitFails := some PyErr.operationalError }

/-- A 128-character title, one character over the `VARCHAR (127)`
column bound. -/
def longTitle : String := String.mk (List.replicate 128 'a')

/-- A request connection over a fresh database. -/
def emptyConn : PgConn := { committed := emptyStore, txn := emptyStore }

/-- A connection whose transaction sees two persisted rows. -/
def twoRowConn : PgConn :=
  { committed := emptyStore,
    txn := { rows := [{ id := 1, title := "A", text := "a", created := 10 },
                      { id := 2, title := "B", text := "b", created := 20 }],
             nextId := 3 } }

/-- `submit_edit(entry_id)` — `POST /submit/<entry_id>` (lines
361–402). Like `add_entry`, the login check is commented out; calls
`update_entry(form['title'], form['text'], entry_id)`, catching only
`psycopg2.Error` into `abort(500)`; on success redirects to `/`. -/
def submit_edit (sess : Session) (entry_id : Nat) (form : Form) (c : PgConn) :
    HandlerResult × PgConn :=
  match form.title, form.text with
  | some t, some x =>
    match update_entry t x entry_id c with
    | Except.ok c1 => (HandlerResult.redirectIndex, c1)
    | Except.error e =>
      if isinstance_psycopg2_Error e then (HandlerResult.abort500, c)
      else (HandlerResult.raised e, c)
  | _, _ => (HandlerResult.raised PyErr.keyError, c)

/-- Relating the teardown guard to the spec's phrase "the error is
present and is classified as a database-layer error". -/
theorem isDBError_iff (exc : Option PyErr) :
    isDBError exc = true ↔ ∃ e, exc = some e ∧ isinstance_psycopg2_Error e = true := by
  cases exc with
  | none => simp [isDBError]
  | some e =>
    simp only [isDBError]
    constructor
    · intro h
      exact ⟨e, rfl, h⟩
    · rintro ⟨e2, he, h⟩
      cases he
      exact h

/-- An UPDATE whose WHERE clause matches no row maps every row to
itself. -/
theorem map_update_id (title text : String) (eid : Nat) :
    ∀ (l : List Row), (∀ r ∈ l, r.id ≠ eid) →
      l.map (fun r => if r.id == eid then { r with title := title, text := text } else r) = l
  | [], _ => rfl
  | hd :: tl, h => by
    have h1 : hd.id ≠ eid := h hd (List.mem_cons_self hd tl)
    have h2 := map_update_id title text eid tl (fun r hr => h r (List.mem_cons_of_mem hd hr))
    rw [List.map_cons, if_neg (by simp [h1]), h2]

/-- Row-by-row description of the UPDATE's effect. -/
theorem forall2_update (title text : String) (eid : Nat) (l : List Row) :
    List.Forall₂ (fun old new =>
        new.id = old.id ∧ new.created = old.created ∧
        (old.id = eid → new.title = title ∧ new.text = text) ∧
        (old.id ≠ eid → new = old)) l
      (l.map (fun r => if r.id == eid then { r with title := title, text := text } else r)) := by
  rw [List.forall₂_map_right_iff, List.forall₂_same]
  intro x hx
  by_cases hxe : x.id = eid
  · simp [hxe]
  · simp [hxe]

/-- C1 (confirmed). For every request in which a database connection
was acquired, teardown resolves the open transaction by exactly this
rule: it rolls back if and only if the error passed to teardown is
present and is classified as a database-layer error (`psycopg2.Error`),
and it commits in every other case — no error, or a non-database error
such as the `ValueError` of invalid input. Stated for teardowns whose
own connection calls do not themselves fail: rolling back discards the
transaction (the visible state reverts to the committed state, which is
untouched), committing makes the transaction durable. -/
theorem teardown_resolution_rule (c : PgConn) (exc : Option PyErr)
    (hc : c.commitFails = none) (hr : c.rollbackFails = none)
    (hcl : c.closeFails = none) :
    ((∃ e, exc = some e ∧ isinstance_psycopg2_Error e = true) →
      teardown_request (some c) exc =
        (some { c with txn := c.committed, closed := true },
         [DBAction.rollback, DBAction.close], none)) ∧
    (¬ (∃ e, exc = some e ∧ isinstance_psycopg2_Error e = true) →
      teardown_request (some c) exc =
        (some { c with committed := c.txn, closed := true },
         [DBAction.commit, DBAction.close], none)) := by
  constructor
  · intro h
    have hd : isDBError exc = true := (isDBError_iff exc).mpr h
    simp [teardown_request, hd, rollbackOp, closeOp, hr, hcl]
  · intro h
    have hd : isDBError exc = false := by
      cases hb : isDBError exc with
      | false => rfl
      | true => exact absurd ((isDBError_iff exc).mp hb) h
    simp [teardown_request, hd, commitOp, closeOp, hc, hcl]

/-- Witness for C1: a storage error rolls the concrete connection
back; the uncommitted insert is gone and the durable state survives. -/
theorem teardown_resolution_rule_witness :
    teardown_request (some stdConn) (some PyErr.operationalError) =
      (some { stdConn with txn := stdConn.committed, closed := true },
       [DBAction.rollback, DBAction.close], none) :=
  (teardown_resolution_rule stdConn (some PyErr.operationalError) rfl rfl rfl).1
    ⟨PyErr.operationalError, rfl, rfl⟩

/-- C4 (confirmed). For every request in which no database connection
was acquired (`getattr(g, 'db', None)` is `None`), teardown is a
no-op: it makes no commit, rollback or close call and propagates no
exception, whatever error it is handed. -/
theorem teardown_no_connection (exc : Option PyErr) :
    teardown_request none exc = (none, [], none) := rfl

/-- Counterexample to C5 as stated: on a connection whose `commit()`
raises, teardown with no error propagates the commit failure and never
reaches `db.close()` — the body has no `try`/`finally` — so the
connection is left open. -/
theorem teardown_close_skipped_cex :
    teardown_request (some commitFailConn) none =
      (some commitFailConn, [DBAction.commit], some PyErr.operationalError) ∧
    DBAction.close ∉ [DBAction.commit] ∧
    commitFailConn.closed = false := by
  refine ⟨rfl, ?_, rfl⟩
  decide

/-- C5 (corrected). In every teardown where a connection exists, the
`close()` call is made after the commit/rollback decision in both
branches, provided the chosen commit or rollback call returns normally;
when the commit or rollback itself raises, the exception propagates out
of teardown at once and `close()` is skipped. -/
theorem teardown_close_after_resolution (c : PgConn) (exc : Option PyErr) :
    ((isDBError exc = true → c.rollbackFails = none) →
     (isDBError exc = false → c.commitFails = none) →
      DBAction.close ∈ (teardown_request (some c) exc).2.1) ∧
    (∀ e, isDBError exc = true → c.rollbackFails = some e →
      (teardown_request (some c) exc).2 = ([DBAction.rollback], some e)) ∧
    (∀ e, isDBError exc = false → c.commitFails = some e →
      (teardown_request (some c) exc).2 = ([DBAction.commit], some e)) := by
  refine ⟨?_, ?_, ?_⟩
  · intro h1 h2
    cases hd : isDBError exc with
    | true =>
      have hr := h1 hd
      simp [teardown_request, hd, rollbackOp, hr, closeOp]
    | false =>
      have hc := h2 hd
      simp [teardown_request, hd, commitOp, hc, closeOp]
  · intro e hd he
    simp [teardown_request, hd, rollbackOp, he]
  · intro e hd he
    simp [teardown_request, hd, commitOp, he]

/-- Witness for C5 (corrected): on the concrete connection whose calls
all succeed, a clean request's teardown does call `close()`. -/
theorem teardown_close_after_resolution_witness :
    DBAction.close ∈ (teardown_request (some stdConn) none).2.1 :=
  (teardown_close_after_resolution stdConn none).1
    (fun h => absurd h (by decide)) (fun _ => rfl)

/-- Counterexample to C2 as stated: on a fresh store, `get_entry 1`
fails with the `TypeError` of `dict(zip(keys, None))`, which is not a
NotFound error (werkzeug's NotFound, the kind `abort(404)` would
raise, is a different exception the function never produces). -/
theorem get_entry_missing_cex :
    get_entry emptyConn 1 = Except.error PyErr.typeError ∧
    get_entry emptyConn 1 ≠ Except.error PyErr.notFound := by
  refine ⟨rfl, ?_⟩
  intro h
  exact PyErr.noConfusion (Except.error.inj h)

/-- C2 (corrected). For every id that matches no stored row,
`get_entry(id)` fails — it neither succeeds nor returns an empty
result — but the failure is an unclassified `TypeError` raised by
`dict(zip(keys, cur.fetchone()))` when `fetchone()` returns `None`,
not a NotFound error kind. -/
theorem get_entry_missing_raises_typeError (c : PgConn) (eid : Nat)
    (h : ∀ r ∈ c.txn.rows, r.id ≠ eid) :
    get_entry c eid = Except.error PyErr.typeError := by
  have hf : c.txn.rows.filter (fun r => r.id == eid) = [] := by
    rw [List.filter_eq_nil_iff]
    intro r hr
    simp [h r hr]
  rw [get_entry, execSingleEntry, hf]
  rfl

/-- Witness for C2 (corrected): the concrete missing-id lookup on a
two-row store raises `TypeError`. -/
theorem get_entry_missing_witness :
    get_entry twoRowConn 7 = Except.error PyErr.typeError :=
  get_entry_missing_raises_typeError twoRowConn 7 (by decide)

/-- C3 (confirmed). `do_login` fails with the bare `ValueError` (the
undifferentiated AuthError) unless the username exactly matches
`ADMIN_USERNAME` and the password verifies against the configured
salted iterated pbkdf2 hash; a username mismatch and a failed password
verification produce the very same error value; and exactly when both
checks pass, the session's `logged_in` flag is set to `True`. -/
theorem do_login_auth_gate (cfg : AppConfig) (u p : String) (s : Session) :
    (u ≠ cfg.adminUsername → do_login cfg u p s = Except.error PyErr.valueError) ∧
    (pbkdf2_verify p cfg.adminPassword = false →
      do_login cfg u p s = Except.error PyErr.valueError) ∧
    (u = cfg.adminUsername → pbkdf2_verify p cfg.adminPassword = true →
      do_login cfg u p s = Except.ok { s with logged_in := some true }) ∧
    (∀ s2, do_login cfg u p s = Except.ok s2 →
      u = cfg.adminUsername ∧ pbkdf2_verify p cfg.adminPassword = true ∧
        s2.logged_in = some true) := by
  refine ⟨?_, ?_, ?_, ?_⟩
  · intro hu
    rw [do_login, if_pos hu]
  · intro hv
    by_cases hu : u = cfg.adminUsername
    · rw [do_login, if_neg (by simp [hu]), if_pos (by simp [hv])]
    · rw [do_login, if_pos hu]
  · intro hu hv
    rw [do_login, if_neg (by simp [hu]), if_neg (by simp [hv])]
  · intro s2 hok
    by_cases hu : u = cfg.adminUsername
    · by_cases hv : pbkdf2_verify p cfg.adminPassword = true
      · rw [do_login, if_neg (by simp [hu]), if_neg (by simp [hv])] at hok
        refine ⟨hu, hv, ?_⟩
        cases hok
        rfl
      · rw [do_login, if_neg (by simp [hu]),
            if_pos (by simpa using hv)] at hok
        cases hok
    · rw [do_login, if_pos hu] at hok
      cases hok

/-- Witness for C3, at the committed default configuration
(`admin`/`pbkdf2_sha256.encrypt('admin')`): a wrong username and a
wrong password yield the identical error, and the correct pair sets
`logged_in`. -/
theorem do_login_auth_gate_witness :
    do_login defaultConfig "wronguser" "admin" emptySession = Except.error PyErr.valueError ∧
    do_login defaultConfig "admin" "wrong" emptySession = Except.error PyErr.valueError ∧
    do_login defaultConfig "admin" "admin" emptySession =
      Except.ok { emptySession with logged_in := some true } :=
  ⟨(do_login_auth_gate defaultConfig "wronguser" "admin" emptySession).1 (by decide),
   (do_login_auth_gate defaultConfig "admin" "wrong" emptySession).2.1 (by decide),
   (do_login_auth_gate defaultConfig "admin" "admin" emptySession).2.2.1 rfl (by decide)⟩

/-- C6 (confirmed). Every call `write_entry(title, text)` with an empty
title or an empty text raises `ValueError` (the spec's InvalidInput) —
the guard runs before any database work — and persists nothing: the
caller's connection, both its transaction view and its durable state,
is exactly what it was before the call. -/
theorem write_entry_empty_input (title text : String) (now : Nat) (c : PgConn)
    (h : title = "" ∨ text = "") :
    write_entry title text now c = Except.error PyErr.valueError ∧
    connAfter c (write_entry title text now c) = c := by
  have he : write_entry title text now c = Except.error PyErr.valueError := by
    rw [write_entry, if_pos h]
  exact ⟨he, by rw [he]; rfl⟩

/-- Witness for C6: writing with an empty title fails and leaves the
fresh store untouched. -/
theorem write_entry_empty_input_witness :
    write_entry "" "body" 3 emptyConn = Except.error PyErr.valueError ∧
    connAfter emptyConn (write_entry "" "body" 3 emptyConn) = emptyConn :=
  write_entry_empty_input "" "body" 3 emptyConn (Or.inl rfl)

set_option maxRecDepth 8000 in
/-- Counterexample to C7 as stated: the 128-character title is
non-empty, yet on the empty store `write_entry` does not succeed — the
`VARCHAR (127)` column makes the insert raise `psycopg2.DataError` —
and the subsequent listing is empty, not a one-entry list. -/
theorem write_entry_long_title_cex :
    longTitle ≠ "" ∧ ("X" : String) ≠ "" ∧
    write_entry longTitle "X" 5 emptyConn = Except.error PyErr.dataError ∧
    (∀ c1, write_entry longTitle "X" 5 emptyConn ≠ Except.ok c1) ∧
    get_all_entries (connAfter emptyConn (write_entry longTitle "X" 5 emptyConn)) = [] := by
  refine ⟨by decide, by decide, rfl, ?_, rfl⟩
  intro c1 h
  have h2 : Except.error PyErr.dataError = Except.ok c1 := h
  exact Except.noConfusion h2

/-- C7 (corrected). Writing a non-empty title of at most 127
characters (the `VARCHAR (127)` column bound) and a non-empty text on
an empty store succeeds, and a subsequent listing on the same
transaction yields exactly one entry whose title and text equal the
arguments and whose `created` is the UTC clock reading taken inside
`write_entry` at call time (`now`; the caller supplies no timestamp) —
while the durable state is untouched: `write_entry` itself does not
commit. A longer title instead raises `psycopg2.DataError` and
persists nothing. -/
theorem write_entry_then_list (title text : String) (now : Nat) (c : PgConn)
    (ht : title ≠ "") (hx : text ≠ "") (hl : title.length ≤ 127)
    (he : c.txn = emptyStore) :
    ∃ c1, write_entry title text now c = Except.ok c1 ∧
      get_all_entries c1 = [{ id := 1, title := title, text := text, created := now }] ∧
      c1.committed = c.committed := by
  have hi : execInsert c.txn title text now =
      Except.ok
        { rows := c.txn.rows ++ [{ id := c.txn.nextId, title := title, text := text, created := now }],
          nextId := c.txn.nextId + 1 } := by
    rw [execInsert, if_neg (Nat.not_lt.mpr hl)]
  refine ⟨{ c with txn :=
    { rows := c.txn.rows ++ [{ id := c.txn.nextId, title := title, text := text, created := now }],
      nextId := c.txn.nextId + 1 } }, ?_, ?_, rfl⟩
  · rw [write_entry, if_neg (by simp [ht, hx]), hi]
  · rw [get_all_entries, he]
    rfl

/-- Witness for C7 (corrected): the concrete write of ("T", "X") at
time 5 on the fresh connection lists exactly one matching row and
commits nothing. -/
theorem write_entry_then_list_witness :
    ∃ c1, write_entry "T" "X" 5 emptyConn = Except.ok c1 ∧
      get_all_entries c1 = [{ id := 1, title := "T", text := "X", created := 5 }] ∧
      c1.committed = emptyConn.committed :=
  write_entry_then_list "T" "X" 5 emptyConn (by decide) (by decide) (by decide) rfl

/-- C8 (confirmed). `get_all_entries()` returns all stored entries —
a permutation of the table's rows — ordered by `created` descending;
for two entries A and B with A.created < B.created the listing is
[B, A]; and on an empty store it returns the empty list rather than
failing. -/
theorem get_all_entries_ordering (c : PgConn) :
    (c.txn.rows = [] → get_all_entries c = []) ∧
    (get_all_entries c).Perm c.txn.rows ∧
    List.Sorted createdDesc (get_all_entries c) ∧
    (∀ (a b : Row), a.created < b.created → c.txn.rows = [a, b] →
      get_all_entries c = [b, a]) := by
  refine ⟨?_, ?_, ?_, ?_⟩
  · intro h
    rw [get_all_entries, execEntriesList, h]
    rfl
  · exact List.perm_insertionSort createdDesc c.txn.rows
  · exact List.sorted_insertionSort createdDesc c.txn.rows
  · intro a b hab hr
    have hn : ¬ createdDesc a b := Nat.not_le.mpr hab
    rw [get_all_entries, execEntriesList, hr]
    simp [List.insertionSort, List.orderedInsert, hn]

/-- Witness for C8: the listing of the fresh store is empty, and the
two-row store with created times 10 < 20 lists the younger row first. -/
theorem get_all_entries_ordering_witness :
    get_all_entries emptyConn = [] ∧
    get_all_entries twoRowConn =
      [{ id := 2, title := "B", text := "b", created := 20 },
       { id := 1, title := "A", text := "a", created := 10 }] :=
  ⟨(get_all_entries_ordering emptyConn).1 rfl,
   (get_all_entries_ordering twoRowConn).2.2.2
     { id := 1, title := "A", text := "a", created := 10 }
     { id := 2, title := "B", text := "b", created := 20 }
     (by decide) rfl⟩

set_option maxRecDepth 8000 in
/-- Counterexample to C9 as stated: the 128-character title, the
non-empty text "a2" and the matching id 1 are all non-empty, yet
`update_entry` on the two-row store does not silently rewrite the
matching row — the `VARCHAR (127)` column makes the UPDATE raise
`psycopg2.DataError` instead of succeeding. -/
theorem update_entry_long_title_cex :
    longTitle ≠ "" ∧ ("a2" : String) ≠ "" ∧ (1 : Nat) ≠ 0 ∧
    update_entry longTitle "a2" 1 twoRowConn = Except.error PyErr.dataError ∧
    (∀ c1, update_entry longTitle "a2" 1 twoRowConn ≠ Except.ok c1) := by
  refine ⟨by decide, by decide, by decide, rfl, ?_⟩
  intro c1 h
  have h2 : Except.error PyErr.dataError = Except.ok c1 := h
  exact Except.noConfusion h2

/-- C9 (corrected). For every `update_entry(title, text, entry_id)`
with non-empty arguments and a title within the `VARCHAR (127)` column
bound, the call succeeds and: row for row, ids and created timestamps
are unchanged; the rows matching the id carry the new title and text;
every non-matching row is entirely unchanged; the serial sequence and
the durable state are untouched; and when the id matches no row the
connection is exactly as before, with no error signalled — a silent
no-op. A title over 127 characters aimed at a matching row instead
raises `psycopg2.DataError` and changes nothing. -/
theorem update_entry_frame (title text : String) (eid : Nat) (c : PgConn)
    (ht : title ≠ "") (hx : text ≠ "") (hi : eid ≠ 0)
    (hl : title.length ≤ 127) :
    ∃ c1, update_entry title text eid c = Except.ok c1 ∧
      c1.committed = c.committed ∧
      c1.txn.nextId = c.txn.nextId ∧
      List.Forall₂ (fun old new =>
        new.id = old.id ∧ new.created = old.created ∧
        (old.id = eid → new.title = title ∧ new.text = text) ∧
        (old.id ≠ eid → new = old)) c.txn.rows c1.txn.rows ∧
      ((∀ r ∈ c.txn.rows, r.id ≠ eid) → c1 = c) := by
  have hg : ¬ (title.length > 127 ∧ c.txn.rows.any (fun r => r.id == eid) = true) :=
    fun hc => Nat.not_lt.mpr hl hc.1
  have hu : execUpdate c.txn title text eid =
      Except.ok
        { c.txn with rows := c.txn.rows.map (fun r =>
            if r.id == eid then { r with title := title, text := text } else r) } := by
    rw [execUpdate, if_neg hg]
  refine ⟨{ c with txn :=
    { c.txn with rows := c.txn.rows.map (fun r =>
        if r.id == eid then { r with title := title, text := text } else r) } },
    ?_, rfl, rfl, ?_, ?_⟩
  · rw [update_entry, if_neg (by simp [ht, hx, hi]), hu]
  · exact forall2_update title text eid c.txn.rows
  · intro h
    rw [map_update_id title text eid c.txn.rows h]

/-- Witness for C9 (corrected): editing entry 1 of the two-row store
to ("A2", "a2") touches only that row's title and text. -/
theorem update_entry_frame_witness :
    ∃ c1, update_entry "A2" "a2" 1 twoRowConn = Except.ok c1 ∧
      c1.committed = twoRowConn.committed ∧
      c1.txn.nextId = twoRowConn.txn.nextId ∧
      List.Forall₂ (fun old new =>
        new.id = old.id ∧ new.created = old.created ∧
        (old.id = 1 → new.title = "A2" ∧ new.text = "a2") ∧
        (old.id ≠ 1 → new = old)) twoRowConn.txn.rows c1.txn.rows ∧
      ((∀ r ∈ twoRowConn.txn.rows, r.id ≠ 1) → c1 = twoRowConn) :=
  update_entry_frame "A2" "a2" 1 twoRowConn (by decide) (by decide) (by decide) (by decide)

/-- C10 (confirmed). The `POST /add` and `POST /submit/<id>` handlers
consult the session nowhere (their login check is commented out in the
source): for any fixed form input, clock reading and connection state,
the response and the effect on the entry store are identical whatever
the session says — logged in, logged out, or no `logged_in` key at
all. An unauthenticated request creates or edits entries exactly as an
admin's does. -/
theorem handlers_ignore_session (s1 s2 : Session) (form : Form)
    (now eid : Nat) (c : PgConn) :
    add_entry s1 form now c = add_entry s2 form now c ∧
    submit_edit s1 eid form c = submit_edit s2 eid form c :=
  ⟨rfl, rfl⟩
